import Mathlib

/-
Verification development for a stock-mention tracking system.

The system ingests social-media content, extracts configured ticker
symbols from free text, stores deduplicated mentions in a persistent
store, and derives BUY/SELL/HOLD recommendations from keyword sentiment.

The repository contains two store generations:

mw legacy path: database.py (data_points table) plus data_source.py plus
  scrapers/reddit_data_source.py;
mw unified path: the advisor package, whose Database class (boolean
  add_mention, is_duplicate, close, update_sentiment_score,
  get_mentions_for_stock, get_all_stocks) is exercised by
  tests/test_database.py and called by advisor/analysis/sentiment.py and
  advisor/core/data_source.py.

Python strings are modelled over their character lists; Python floats are
modelled as rationals (all facts proved here are order or exactness facts
that binary-double rounding preserves at the values involved, never
borderline rounding facts); raised Python exceptions are modelled with
Except.  ASCII case mapping is used throughout, which agrees with Python
upper and lower on the ASCII alphabet the system handles.
-/

namespace StockAdvisor

/-! ## Python string primitives -/

/-- Model of the Python str.lower method (ASCII case mapping). -/
def pyLower (s : List Char) : List Char := s.map Char.toLower

/-- Model of the Python str.upper method (ASCII case mapping). -/
def pyUpper (s : List Char) : List Char := s.map Char.toUpper

/-- Decides whether the needle occurs in the hay starting at index i. -/
def sublistAt (hay needle : List Char) (i : Nat) : Bool :=
  decide ((hay.drop i).take needle.length = needle)

/-- Model of the Python substring containment test (the in operator on
strings): some start index yields the needle. -/
def containsSub (hay needle : List Char) : Bool :=
  (List.range (hay.length + 1)).any (fun i => sublistAt hay needle i)

/-- Word characters in the sense of the regex metacharacter for word
boundaries, restricted to ASCII (letters, digits, underscore). -/
def isWordChar (c : Char) : Bool := c.isAlphanum || c == '_'

/-- Decides whether the pattern occurs at index i of the text with a word
boundary on each side, as the compiled ticker regex requires: the
preceding character (if any) and the following character (if any) are not
word characters. -/
def wordMatchAt (hay t : List Char) (i : Nat) : Bool :=
  sublistAt hay t i
    && (if i = 0 then true else !(isWordChar (hay.getD (i - 1) ' ')))
    && !(isWordChar (hay.getD (i + t.length) ' '))

/-- Decides whether a nonempty pattern occurs somewhere in the text with
word boundaries on both sides. -/
def occursAsWord (hay t : List Char) : Bool :=
  !(t.isEmpty) && (List.range (hay.length + 1)).any (fun i => wordMatchAt hay t i)

/-! ## Ticker extraction

Models RedditDataSource.extract_tickers_from_text together with the
compiled pattern built in RedditDataSource.__init__: the configured
tickers are upper-cased, joined into a word-boundary alternation, the
input text is upper-cased, findall collects the matches and list(set(..))
removes duplicates.  For configured tickers that are nonempty runs of
word characters (the alphanumeric symbols the system is configured with),
a word-boundary alternation match is exactly an occurrence of one of the
tickers with word boundaries on both sides, so the resulting set is the
set of configured tickers occurring in the text as whole words.  The
arbitrary iteration order Python set gives is replaced by first-occurrence
order in the configured list, which no caller depends on (the pipeline
only counts and stores per element). -/

/-- Model of ticker extraction: upper-cases the text and keeps the
(deduplicated, upper-cased) configured tickers that occur as whole
words. -/
def extractTickers (cfgTickers : List (List Char)) (text : List Char) : List (List Char) :=
  (((cfgTickers.map pyUpper).filter (fun t => occursAsWord (pyUpper text) t))).dedup

/-! ## Sentiment scoring

Models SentimentAnalyzer._simple_sentiment_analysis (which analyze_text
delegates to).  Counting is presence counting: the Python sum adds one
per word list entry contained in the lowered content, not one per
occurrence. -/

/-- Fixed positive keyword list from SentimentAnalyzer. -/
def positiveWords : List (List Char) :=
  ["buy".data, "bullish".data, "moon".data, "rocket".data, "gains".data, "up".data,
   "rise".data, "good".data, "great".data, "excellent".data, "strong".data, "beat".data,
   "winning".data, "profit".data, "growth".data, "increase".data, "bull".data,
   "positive".data, "optimistic".data, "upgrade".data]

/-- Fixed negative keyword list from SentimentAnalyzer. -/
def negativeWords : List (List Char) :=
  ["sell".data, "bearish".data, "crash".data, "dump".data, "loss".data, "down".data,
   "fall".data, "bad".data, "terrible".data, "weak".data, "miss".data, "losing".data,
   "decline".data, "decrease".data, "bear".data, "negative".data, "pessimistic".data,
   "downgrade".data, "short".data]

/-- Model of the Python two-argument max on rationals. -/
def pyMax (a b : ℚ) : ℚ := if a < b then b else a

/-- Model of the Python two-argument min on rationals. -/
def pyMin (a b : ℚ) : ℚ := if b < a then b else a

/-- Model of the Python two-argument max on naturals. -/
def pyMaxNat (a b : Nat) : Nat := if a < b then b else a

/-- Model of SentimentAnalyzer._simple_sentiment_analysis: 0.0 when the
lowered ticker is not contained in the lowered content; otherwise counts
the positive and the negative keywords contained in the lowered content,
returns 0.0 when none occurs and otherwise the normalized difference
clamped to the interval from -1 to 1. -/
def simpleSentimentAnalysis (content ticker : List Char) : ℚ :=
  let contentLower := pyLower content
  let tickerLower := pyLower ticker
  if !(containsSub contentLower tickerLower) then 0
  else
    let positiveScore := (positiveWords.filter (fun w => containsSub contentLower w)).length
    let negativeScore := (negativeWords.filter (fun w => containsSub contentLower w)).length
    let totalSentimentWords := positiveScore + negativeScore
    if totalSentimentWords = 0 then 0
    else
      let sentiment : ℚ :=
        ((positiveScore : ℚ) - (negativeScore : ℚ)) / (pyMaxNat totalSentimentWords 1 : ℚ)
      pyMax (-1) (pyMin 1 sentiment)

/-! ## Recommendation -/

/-- Tri-state recommendation returned by SentimentAnalyzer.get_recommendation. -/
inductive Recommendation where
  | BUY : Recommendation
  | SELL : Recommendation
  | HOLD : Recommendation
deriving DecidableEq, Repr

/-- Default buy threshold (config key analysis.sentiment_threshold_buy,
default 0.7 both in the default configuration and at the lookup). -/
def defaultBuyThreshold : ℚ := 7/10

/-- Default sell threshold (config key analysis.sentiment_threshold_sell,
default 0.3 both in the default configuration and at the lookup). -/
def defaultSellThreshold : ℚ := 3/10

/-- Model of SentimentAnalyzer.get_recommendation, parameterized by the
configured thresholds.  The mention count is compared against the fixed
minimum of 5 before any threshold comparison. -/
def getRecommendation (buyThreshold sellThreshold : ℚ)
    (sentimentScore : ℚ) (mentionCount : ℚ) : Recommendation :=
  if mentionCount < 5 then .HOLD
  else if sentimentScore ≥ buyThreshold then .BUY
  else if sentimentScore ≤ sellThreshold then .SELL
  else .HOLD

/-! ## Python exceptions -/

/-- Python exceptions the modelled operations can raise. -/
inductive PyError where
  /-- RuntimeError with a message, raised by store operations after close. -/
  | runtimeError (msg : String) : PyError
  /-- TypeError, raised for instance by json.loads applied to None. -/
  | typeError : PyError
  /-- ValueError (JSONDecodeError), raised by json.loads on malformed input. -/
  | valueError : PyError
  /-- AttributeError, raised for instance by calling split on None. -/
  | attributeError : PyError
deriving DecidableEq, Repr

deriving instance DecidableEq for Except

/-! ## Unified persistent store

Modelled from the spec: the unified advisor Database class (section 4.1
of the spec: a persistent connection, boolean insertMention rejecting a
colliding external identifier, existsByExternalId, mentionsForStock,
setSentiment, allStockSymbols, close with fail-fast semantics afterwards)
is not present under src; src holds only a stale predecessor of
advisor/core/database.py, the tests (tests/test_database.py) and the
callers (advisor/analysis/sentiment.py, advisor/core/data_source.py).
The model follows the contract of spec section 4.1 and section 3 (the
mention log carries a UNIQUE external identifier; the stock table a
UNIQUE symbol) and is consistent with every behavior the tests pin down,
including the exact RuntimeError message after close.  SQLite rowids are
modelled by a counter starting at 1; a NULL column is an Option that is
none. -/

/-- Row of the stocks table. -/
structure Stockrec where
  id : Nat
  symbol : List Char
deriving DecidableEq, Repr

/-- Row of the mentions table. -/
structure Mention where
  id : Nat
  stockId : Nat
  content : List Char
  url : Option (List Char)
  externalId : Option (List Char)
  metadata : Option (List Char)
  sentimentScore : Option ℚ
deriving DecidableEq, Repr

/-- State of the unified advisor store: a connection flag (none after
close) and the two tables in insertion order, with the next fresh rowid
for each. -/
structure Database where
  connOpen : Bool
  stocks : List Stockrec
  mentions : List Mention
  nextStockId : Nat
  nextMentionId : Nat
deriving DecidableEq, Repr

/-- Freshly initialized store: open connection, empty tables, rowids
starting at 1. -/
def Database.init : Database :=
  { connOpen := true, stocks := [], mentions := [], nextStockId := 1, nextMentionId := 1 }

/-- Guard shared by every operation: raise RuntimeError when the
connection has been torn down. -/
def Database.requireConn (db : Database) : Except PyError Unit :=
  if db.connOpen then .ok () else .error (.runtimeError "Database connection not initialized")

/-- Model of Database.add_stock: upper-case the symbol, insert it if
absent and return the fresh rowid; when the UNIQUE symbol constraint
rejects the insert, look the existing row up and return its id (None in
the vacuous branch where the lookup finds nothing). -/
def Database.add_stock (db : Database) (symbol : List Char) :
    Except PyError (Option Nat × Database) := do
  db.requireConn
  let u := pyUpper symbol
  match (db.stocks.filter (fun r => r.symbol = u)).head? with
  | some r => .ok (some r.id, db)
  | none =>
      .ok (some db.nextStockId,
        { db with
            stocks := db.stocks ++ [{ id := db.nextStockId, symbol := u }],
            nextStockId := db.nextStockId + 1 })

/-- Model of Database.get_stock_id: case-normalized lookup returning the
rowid of the stock or None. -/
def Database.get_stock_id (db : Database) (symbol : List Char) :
    Except PyError (Option Nat) := do
  db.requireConn
  .ok (((db.stocks.filter (fun r => r.symbol = pyUpper symbol)).head?).map Stockrec.id)

/-- Model of Database.add_mention: insert the row and return True, except
when the external identifier is present and collides with an existing
row, in which case nothing is inserted and False is returned (the UNIQUE
constraint rejection is caught and surfaced as the return value). -/
def Database.add_mention (db : Database) (stockId : Nat) (content : List Char)
    (url : Option (List Char)) (externalId : Option (List Char))
    (metadata : Option (List Char)) :
    Except PyError (Bool × Database) := do
  db.requireConn
  match externalId with
  | some x =>
      if db.mentions.any (fun m => m.externalId = some x) then
        .ok (false, db)
      else
        .ok (true,
          { db with
              mentions := db.mentions ++
                [{ id := db.nextMentionId, stockId := stockId, content := content,
                   url := url, externalId := externalId, metadata := metadata,
                   sentimentScore := none }],
              nextMentionId := db.nextMentionId + 1 })
  | none =>
      .ok (true,
        { db with
            mentions := db.mentions ++
              [{ id := db.nextMentionId, stockId := stockId, content := content,
                 url := url, externalId := none, metadata := metadata,
                 sentimentScore := none }],
            nextMentionId := db.nextMentionId + 1 })

/-- Model of Database.is_duplicate: does some mention row carry exactly
this external identifier. -/
def Database.is_duplicate (db : Database) (externalId : List Char) :
    Except PyError Bool := do
  db.requireConn
  .ok (db.mentions.any (fun m => m.externalId = some externalId))

/-- Model of Database.get_mentions_for_stock: the mentions of the
case-normalized symbol, newest first (reverse insertion order; the order
within one timestamp is unspecified in the spec and every stored row here
has a distinct insertion instant), truncated to the limit when one is
given.  An unknown symbol yields the empty list. -/
def Database.get_mentions_for_stock (db : Database) (symbol : List Char)
    (limit : Option Nat) : Except PyError (List Mention) := do
  db.requireConn
  match (db.stocks.filter (fun r => r.symbol = pyUpper symbol)).head? with
  | none => .ok []
  | some r =>
      let rows := (db.mentions.filter (fun m => m.stockId = r.id)).reverse
      .ok (match limit with | some n => rows.take n | none => rows)

/-- Model of Database.update_sentiment_score: set the sentiment of every
row carrying the external identifier and report True; report False when
no row carries it. -/
def Database.update_sentiment_score (db : Database) (externalId : List Char)
    (score : ℚ) : Except PyError (Bool × Database) := do
  db.requireConn
  if db.mentions.any (fun m => m.externalId = some externalId) then
    .ok (true,
      { db with
          mentions := db.mentions.map (fun m =>
            if m.externalId = some externalId then
              { m with sentimentScore := some score }
            else m) })
  else
    .ok (false, db)

/-- Model of Database.get_all_stocks: every stored symbol. -/
def Database.get_all_stocks (db : Database) :
    Except PyError (List (List Char)) := do
  db.requireConn
  .ok (db.stocks.map Stockrec.symbol)

/-- Model of Database.close: tear the connection down (idempotent). -/
def Database.close (db : Database) : Database :=
  { db with connOpen := false }

/-- Invariant of the unified mention log: at most one row per distinct
external identifier. -/
def atMostOnePerExternalId (db : Database) : Prop :=
  ∀ x, (db.mentions.filter (fun m => m.externalId = some x)).length ≤ 1

/-- Fixture: unified store tracking one stock and no mentions yet. -/
def c10PreStore : Database :=
  { connOpen := true, stocks := [⟨1, "AAPL".data⟩], mentions := [],
    nextStockId := 2, nextMentionId := 1 }

/-- Fixture: the same store after inserting one mention whose metadata
column is NULL and whose sentiment is not yet scored. -/
def c10Store : Database :=
  { connOpen := true, stocks := [⟨1, "AAPL".data⟩],
    mentions := [⟨1, 1, "plain note".data, some "https://reddit.com/p1".data,
      some "reddit_submission_p1".data, none, none⟩],
    nextStockId := 2, nextMentionId := 2 }

/-- Fixture: a mention already carrying a sentiment score of 1. -/
def c8ScoredMention : Mention :=
  ⟨1, 1, "AAPL fine".data, some "https://reddit.com/s1".data,
    some "reddit_submission_s1".data,
    some "\x7b\"type\": \"submission\"\x7d".data, some 1⟩

/-- Fixture: a not-yet-scored mention with readable metadata and url. -/
def c8UnscoredMention : Mention :=
  ⟨2, 1, "short note".data, some "https://reddit.com/s2".data,
    some "reddit_submission_s2".data,
    some "\x7b\"type\": \"submission\"\x7d".data, none⟩

/-! ## Legacy persistent store

Models database.py at the repository root: the data_points table with a
source column, one connection per operation (so no close state), and a
plain INSERT in add_data_point.  The schema file it loads is not under
src; per the spec (sections 2, 8.8 and 9) the legacy schema stores one
row per (content item, ticker), several rows sharing one external
identifier, so the external identifier carries no UNIQUE constraint here
and the insert has no failure mode (SQLite does not enforce the foreign
key by default).  Deduplication on this path is the responsibility of the
pre-check data_point_exists, keyed by source and external identifier. -/

/-- Row of the legacy data_points table. -/
structure DataPoint where
  id : Nat
  stockId : Nat
  source : List Char
  content : List Char
  url : Option (List Char)
  externalId : Option (List Char)
  metadata : Option (List Char)
deriving DecidableEq, Repr

/-- State of the legacy store. -/
structure LegacyDatabase where
  stocks : List Stockrec
  dataPoints : List DataPoint
  nextStockId : Nat
  nextRowId : Nat
deriving DecidableEq, Repr

/-- Freshly initialized legacy store. -/
def LegacyDatabase.init : LegacyDatabase :=
  { stocks := [], dataPoints := [], nextStockId := 1, nextRowId := 1 }

/-- Model of the legacy Database.add_stock (identical code in both
database.py generations): upper-case, insert if absent returning the
fresh rowid, otherwise return the id of the existing row. -/
def LegacyDatabase.add_stock (db : LegacyDatabase) (symbol : List Char) :
    Option Nat × LegacyDatabase :=
  let u := pyUpper symbol
  match (db.stocks.filter (fun r => r.symbol = u)).head? with
  | some r => (some r.id, db)
  | none =>
      (some db.nextStockId,
        { db with
            stocks := db.stocks ++ [{ id := db.nextStockId, symbol := u }],
            nextStockId := db.nextStockId + 1 })

/-- Model of the legacy Database.get_stock_id: case-normalized lookup. -/
def LegacyDatabase.get_stock_id (db : LegacyDatabase) (symbol : List Char) : Option Nat :=
  ((db.stocks.filter (fun r => r.symbol = pyUpper symbol)).head?).map Stockrec.id

/-- Model of the legacy Database.add_data_point: plain INSERT returning
the fresh rowid; under the legacy schema (no UNIQUE external identifier,
foreign keys off) it always succeeds. -/
def LegacyDatabase.add_data_point (db : LegacyDatabase) (stockId : Nat)
    (source content : List Char) (url externalId metadata : Option (List Char)) :
    Nat × LegacyDatabase :=
  (db.nextRowId,
    { db with
        dataPoints := db.dataPoints ++
          [{ id := db.nextRowId, stockId := stockId, source := source,
             content := content, url := url, externalId := externalId,
             metadata := metadata }],
        nextRowId := db.nextRowId + 1 })

/-- Model of the legacy Database.data_point_exists: is some row stored
with this source and exactly this external identifier. -/
def LegacyDatabase.data_point_exists (db : LegacyDatabase)
    (source externalId : List Char) : Bool :=
  db.dataPoints.any (fun p => p.source = source && p.externalId = some externalId)

/-! ## Legacy DataSource wrappers

Models data_source.py at the repository root.  The wrappers are
parameterized by the source name that get_source_name returns (the
Reddit pipeline returns the constant reddit). -/

/-- Source tag of the Reddit data source (RedditDataSource.get_source_name). -/
def redditSource : List Char := "reddit".data

/-- Model of DataSource.is_duplicate: delegate to data_point_exists under
the source name of this data source. -/
def DataSource.is_duplicate (sourceName : List Char) (db : LegacyDatabase)
    (externalId : List Char) : Bool :=
  db.data_point_exists sourceName externalId

/-- Model of DataSource.store_data_point: attempt the insert and report
True, reporting False when the insert raises.  In the legacy store the
insert has no failure mode, so the except branch is unreachable and the
report is always True. -/
def DataSource.store_data_point (sourceName : List Char) (db : LegacyDatabase)
    (stockId : Nat) (content url externalId metadata : List Char) :
    Bool × LegacyDatabase :=
  let (_, db2) := db.add_data_point stockId sourceName content
    (some url) (some externalId) (some metadata)
  (true, db2)

/-- Model of DataSource.get_stock_id: delegate to the store. -/
def DataSource.get_stock_id (db : LegacyDatabase) (symbol : List Char) : Option Nat :=
  db.get_stock_id symbol

/-- Model of DataSource.ensure_stocks_exist: upsert every ticker. -/
def DataSource.ensure_stocks_exist (db : LegacyDatabase)
    (tickers : List (List Char)) : LegacyDatabase :=
  tickers.foldl (fun d t => (d.add_stock t).2) db

/-! ## Feed walker and dedup pipeline

Models scrapers/reddit_data_source.py.  Items are modelled as records
carrying the fields the walker reads; the clock is a parameter fixed for
one walk (the code re-reads it per item; later items of a newest-first
feed only grow older under a moving clock, so every fact proved here is
insensitive to that simplification).  Python floats are rationals. -/

/-- Opening brace character (written by code point to keep string
literals brace-free). -/
def openBrace : Char := Char.ofNat 123

/-- Closing brace character. -/
def closeBrace : Char := Char.ofNat 125

/-- Characters the Python str.strip method removes. -/
def isPySpace (c : Char) : Bool :=
  c == ' ' || c == '\t' || c == '\n' || c == '\r' || c == Char.ofNat 11 || c == Char.ofNat 12

/-- Model of the Python str.strip method. -/
def pyStrip (s : List Char) : List Char :=
  ((s.dropWhile isPySpace).reverse.dropWhile isPySpace).reverse

/-- Configuration slice the Reddit pipeline reads: configured tickers and
the time window in days (config keys min_days, default 0, and max_days,
default 7). -/
structure RedditConfig where
  tickers : List (List Char)
  minDays : ℚ
  maxDays : ℚ
deriving Repr

/-- Top-level submission as the walker reads it. -/
structure Submission where
  id : List Char
  title : List Char
  selftext : List Char
  author : List Char
  url : List Char
  createdUtc : ℚ
deriving Repr

/-- Comment as the walker reads it. -/
structure RedditComment where
  id : List Char
  body : List Char
  author : List Char
  permalink : List Char
  createdUtc : ℚ
deriving Repr

/-- Model of RedditDataSource.age_in_days: age of the item in fractional
days at the given clock reading (both in seconds since the epoch). -/
def ageInDays (now createdUtc : ℚ) : ℚ :=
  (now - createdUtc) / 86400

/-- Model of RedditDataSource.is_within_time_range. -/
def isWithinTimeRange (minDays maxDays age : ℚ) : Bool :=
  decide (minDays ≤ age ∧ age ≤ maxDays)

/-- Model of RedditDataSource.get_submission_text: title, newline, body,
stripped. -/
def getSubmissionText (s : Submission) : List Char :=
  pyStrip (s.title ++ '\n' :: s.selftext)

/-- Model of RedditDataSource.create_external_id. -/
def createExternalId (contentType contentId : List Char) : List Char :=
  "reddit_".data ++ contentType ++ "_".data ++ contentId

/-- Canonical rendering of a rational, standing in for the Python float
repr inside the metadata blob (no claim reads this field back; it is
stored opaquely). -/
def renderNum (q : ℚ) : List Char := (toString q).data

/-- Model of RedditDataSource.create_metadata: the json.dumps rendering
of the five-field payload, in insertion order, modelled for
escape-free strings. -/
def createMetadata (contentType subreddit author : List Char) (ageDays : ℚ)
    (tickers : List (List Char)) : List Char :=
  let quote : List Char → List Char := fun s => '"' :: s ++ ['"']
  openBrace ::
    (quote "type".data ++ ": ".data ++ quote contentType ++ ", ".data ++
     quote "subreddit".data ++ ": ".data ++ quote subreddit ++ ", ".data ++
     quote "author".data ++ ": ".data ++ quote author ++ ", ".data ++
     quote "age_days".data ++ ": ".data ++ renderNum ageDays ++ ", ".data ++
     quote "tickers".data ++ ": [".data ++
       (List.intercalate ", ".data (tickers.map quote)) ++ "]".data) ++
  [closeBrace]

/-- Per-ticker loop of process_content_for_tickers: look the stock id up
(a missing or falsy id drops the ticker without a store call), store the
data point, and bump the stored count when the store reports success. -/
def storeForTickers (content url externalId metadata : List Char) :
    Nat × LegacyDatabase → List (List Char) → Nat × LegacyDatabase
  | acc, [] => acc
  | acc, t :: rest =>
      match DataSource.get_stock_id acc.2 t with
      | some stockId =>
          if stockId ≠ 0 then
            let step := DataSource.store_data_point redditSource acc.2 stockId
              content url externalId metadata
            storeForTickers content url externalId metadata
              (if step.1 then acc.1 + 1 else acc.1, step.2) rest
          else storeForTickers content url externalId metadata acc rest
      | none => storeForTickers content url externalId metadata acc rest

/-- Model of RedditDataSource.process_content_for_tickers.  Returns the
stored count and the store; the third component counts how many times the
store-existence pre-check ran, so the once-per-item discipline is
visible in the result. -/
def processContentForTickers (cfg : RedditConfig) (db : LegacyDatabase)
    (content url externalId metadata : List Char) : Nat × LegacyDatabase × Nat :=
  let foundTickers := extractTickers cfg.tickers content
  if foundTickers.isEmpty then (0, db, 0)
  else if DataSource.is_duplicate redditSource db externalId then (0, db, 1)
  else
    let result := storeForTickers content url externalId metadata ((0 : Nat), db) foundTickers
    (result.1, result.2, 1)

/-- Truthiness of the stock id lookup the per-ticker loop guards on: a
present, nonzero id. -/
def hasKnownStockId (db : LegacyDatabase) (t : List Char) : Bool :=
  decide ((DataSource.get_stock_id db t).getD 0 ≠ 0)

/-- Configuration of the end-to-end dedup scenario: tracked tickers AAPL
and TSLA, default window. -/
def c2Config : RedditConfig :=
  { tickers := ["AAPL".data, "TSLA".data], minDays := 0, maxDays := 7 }

/-- Legacy store seeded with the two tracked tickers, as
ensure_stocks_exist does at pipeline construction. -/
def c2Store : LegacyDatabase :=
  DataSource.ensure_stocks_exist LegacyDatabase.init c2Config.tickers

/-- Model of RedditDataSource.process_submissions over the newest-first
submission sequence of one subreddit: break the whole walk on the first
item older than the maximum window, skip items outside the window or with
empty text, hand the rest to the dedup pipeline and tally stored versus
skipped. -/
def processSubmissions (cfg : RedditConfig) (now : ℚ) (subredditName : List Char) :
    LegacyDatabase → List Submission → Nat × Nat × LegacyDatabase
  | db, [] => (0, 0, db)
  | db, s :: rest =>
      let age := ageInDays now s.createdUtc
      if age > cfg.maxDays then (0, 0, db)
      else if !(isWithinTimeRange cfg.minDays cfg.maxDays age) then
        processSubmissions cfg now subredditName db rest
      else
        let content := getSubmissionText s
        if content.isEmpty then processSubmissions cfg now subredditName db rest
        else
          let externalId := createExternalId "submission".data s.id
          let metadata := createMetadata "submission".data subredditName s.author age
            (extractTickers cfg.tickers content)
          let step := processContentForTickers cfg db content s.url externalId metadata
          let tail := processSubmissions cfg now subredditName step.2.1 rest
          if step.1 > 0 then (step.1 + tail.1, tail.2.1, tail.2.2)
          else (tail.1, 1 + tail.2.1, tail.2.2)

/-- Model of RedditDataSource.process_comments over the newest-first
comment sequence of one subreddit, with the same early-termination and
skip rules as the submission walk. -/
def processComments (cfg : RedditConfig) (now : ℚ) (subredditName : List Char) :
    LegacyDatabase → List RedditComment → Nat × Nat × LegacyDatabase
  | db, [] => (0, 0, db)
  | db, c :: rest =>
      let age := ageInDays now c.createdUtc
      if age > cfg.maxDays then (0, 0, db)
      else if !(isWithinTimeRange cfg.minDays cfg.maxDays age) then
        processComments cfg now subredditName db rest
      else
        let content := c.body
        if content.isEmpty then processComments cfg now subredditName db rest
        else
          let externalId := createExternalId "comment".data c.id
          let url := "https://reddit.com".data ++ c.permalink
          let metadata := createMetadata "comment".data subredditName c.author age
            (extractTickers cfg.tickers content)
          let step := processContentForTickers cfg db content url externalId metadata
          let tail := processComments cfg now subredditName step.2.1 rest
          if step.1 > 0 then (step.1 + tail.1, tail.2.1, tail.2.2)
          else (tail.1, 1 + tail.2.1, tail.2.2)

/-- Fixture: a submission created at the epoch, aged 10 days at the
fixture clock, beyond the default 7 day window. -/
def c3OldSub : Submission :=
  { id := "old".data, title := "AAPL too old".data, selftext := "".data,
    author := "a".data, url := "u1".data, createdUtc := 0 }

/-- Fixture: a submission aged 1 day at the fixture clock, inside the
window. -/
def c3NewSub : Submission :=
  { id := "new".data, title := "AAPL fresh".data, selftext := "".data,
    author := "b".data, url := "u2".data, createdUtc := 86400 * 9 }

/-- Fixture: a comment aged half a day at the fixture clock, newer than a
one day minimum window. -/
def c3YoungComment : RedditComment :=
  { id := "young".data, body := "TSLA soon".data, author := "c".data,
    permalink := "/p".data, createdUtc := 86400 * 19 + 43200 }

/-- Fixture: a comment aged 2 days at the fixture clock. -/
def c3MidComment : RedditComment :=
  { id := "mid".data, body := "TSLA now".data, author := "d".data,
    permalink := "/q".data, createdUtc := 86400 * 18 }

/-! ## JSON model

Model of the slice of the Python json module the analysis layer uses.
json.loads applied to None raises TypeError; applied to a string it
yields a value or raises ValueError (JSONDecodeError).  The reader below
covers objects, arrays, strings without escape sequences, decimal
numbers without exponents, booleans and null, which includes everything
the pipeline serializes; inputs outside that slice are rejected, so
every accepted input is genuine JSON. -/

/-- JSON values. -/
inductive Json where
  | null : Json
  | jbool (b : Bool) : Json
  | num (q : ℚ) : Json
  | str (s : List Char) : Json
  | arr (elems : List Json) : Json
  | obj (fields : List ((List Char) × Json)) : Json
deriving Repr

/-- JSON whitespace. -/
def isJsonWs (c : Char) : Bool :=
  c == ' ' || c == '\t' || c == '\n' || c == '\r'

/-- Digit run to a natural number. -/
def digitsToNat (ds : List Char) : Nat :=
  ds.foldl (fun n c => n * 10 + (c.toNat - 48)) 0

/-- Reads a string body up to the closing quote (escape sequences are
outside the modelled slice and rejected). -/
def parseStringBody : List Char → Except PyError (List Char × List Char)
  | [] => .error .valueError
  | '"' :: rest => .ok ([], rest)
  | '\\' :: _ => .error .valueError
  | c :: rest => do
      let (s, r) ← parseStringBody rest
      .ok (c :: s, r)

/-- Reads a decimal number, optionally signed, optionally with a
fractional part. -/
def parseNumber (s : List Char) : Except PyError (Json × List Char) :=
  let signed := match s with
    | '-' :: r => (true, r)
    | _ => (false, s)
  let intDigits := signed.2.takeWhile Char.isDigit
  let s2 := signed.2.dropWhile Char.isDigit
  if intDigits.isEmpty then .error .valueError
  else
    match s2 with
    | '.' :: r =>
        let fracDigits := r.takeWhile Char.isDigit
        let s3 := r.dropWhile Char.isDigit
        if fracDigits.isEmpty then .error .valueError
        else
          let q : ℚ := (digitsToNat intDigits : ℚ) +
            (digitsToNat fracDigits : ℚ) / ((10 : ℚ) ^ fracDigits.length)
          .ok (.num (if signed.1 then -q else q), s3)
    | _ =>
        let q : ℚ := (digitsToNat intDigits : ℚ)
        .ok (.num (if signed.1 then -q else q), s2)

mutual

/-- Reads one JSON value; the fuel bounds nesting depth and exceeds the
input length at the top-level call. -/
def parseValue : Nat → List Char → Except PyError (Json × List Char)
  | 0, _ => .error .valueError
  | Nat.succ fuel, s0 =>
      let s := s0.dropWhile isJsonWs
      match s with
      | 'n' :: 'u' :: 'l' :: 'l' :: rest => .ok (.null, rest)
      | 't' :: 'r' :: 'u' :: 'e' :: rest => .ok (.jbool true, rest)
      | 'f' :: 'a' :: 'l' :: 's' :: 'e' :: rest => .ok (.jbool false, rest)
      | '"' :: rest => do
          let (body, rest2) ← parseStringBody rest
          .ok (.str body, rest2)
      | '[' :: rest =>
          let restW := rest.dropWhile isJsonWs
          (match restW with
           | ']' :: rest2 => .ok (.arr [], rest2)
           | _ => do
              let (elems, rest2) ← parseElems fuel restW
              .ok (.arr elems, rest2))
      | c :: rest =>
          if c = openBrace then
            let restW := rest.dropWhile isJsonWs
            (match restW with
             | c2 :: rest2 =>
                if c2 = closeBrace then .ok (.obj [], rest2)
                else do
                  let (fields, rest3) ← parseFields fuel restW
                  .ok (.obj fields, rest3)
             | [] => .error .valueError)
          else if c = '-' || c.isDigit then parseNumber (c :: rest)
          else .error .valueError
      | [] => .error .valueError

/-- Reads the comma-separated elements of a nonempty array up to the
closing bracket. -/
def parseElems : Nat → List Char → Except PyError (List Json × List Char)
  | 0, _ => .error .valueError
  | Nat.succ fuel, s => do
      let (v, rest) ← parseValue fuel s
      let restW := rest.dropWhile isJsonWs
      match restW with
      | ',' :: rest2 => do
          let (vs, rest3) ← parseElems fuel rest2
          .ok (v :: vs, rest3)
      | ']' :: rest2 => .ok ([v], rest2)
      | _ => .error .valueError

/-- Reads the fields of a nonempty object up to the closing brace. -/
def parseFields : Nat → List Char → Except PyError (List ((List Char) × Json) × List Char)
  | 0, _ => .error .valueError
  | Nat.succ fuel, s0 =>
      let s := s0.dropWhile isJsonWs
      match s with
      | '"' :: rest => do
          let (key, rest2) ← parseStringBody rest
          let rest2W := rest2.dropWhile isJsonWs
          match rest2W with
          | ':' :: rest3 => do
              let (v, rest4) ← parseValue fuel rest3
              let rest4W := rest4.dropWhile isJsonWs
              (match rest4W with
               | c :: rest5 =>
                  if c = ',' then do
                    let (fs, rest6) ← parseFields fuel rest5
                    .ok ((key, v) :: fs, rest6)
                  else if c = closeBrace then .ok ([(key, v)], rest5)
                  else .error .valueError
               | [] => .error .valueError)
          | _ => .error .valueError
      | _ => .error .valueError

end

/-- Model of json.loads on the metadata column: None raises TypeError; a
string is read completely or raises ValueError. -/
def jsonLoads : Option (List Char) → Except PyError Json
  | none => .error .typeError
  | some s => do
      let (v, rest) ← parseValue (s.length + 2) s
      if (rest.dropWhile isJsonWs).isEmpty then .ok v else .error .valueError

/-- Model of dict duplicate-key resolution and lookup: the last binding
of the key wins; a non-object value has no get method (AttributeError). -/
def jsonGetField (j : Json) (key : List Char) : Except PyError (Option Json) :=
  match j with
  | .obj fields => .ok (((fields.filter (fun f => f.1 = key)).getLast?).map Prod.snd)
  | _ => .error .attributeError

/-- Rendering a JSON value inside a Python f-string.  Container values
never arise on this path in the system (the serializer writes a string
into the type field); their branches stand in for the Python repr and no
claim evaluates them. -/
def jsonToPyStr : Json → List Char
  | .str s => s
  | .null => "None".data
  | .jbool true => "True".data
  | .jbool false => "False".data
  | .num q => renderNum q
  | .arr _ => "<list>".data
  | .obj _ => "<dict>".data

/-! ## Sentiment aggregation

Models SentimentAnalyzer.analyze_mentions_for_stock.  For a mention that
does not yet carry a score, the code scores its content, re-derives an
external identifier from the metadata type field and the last slash
segment of the url, and counts the mention only when the store accepts
the sentiment update under that identifier.  The metadata and url values
are read with dict get against the row dictionary, whose keys are always
present: a NULL metadata reaches json.loads as None (TypeError) and a
NULL url reaches split as None (AttributeError). -/

/-- Aggregation result (average_sentiment, total_mentions, analyzed). -/
structure AnalysisResult where
  averageSentiment : ℚ
  totalMentions : Nat
  analyzed : Nat
deriving DecidableEq, Repr

/-- Last segment of the url after splitting on the slash. -/
def lastSegment (url : List Char) : List Char :=
  (url.splitOn '/').getLastD []

/-- Value of metadata.get applied to the type key with default unknown,
rendered into the derived external identifier. -/
def jsonGetTypeDefault (j : Json) : Except PyError (List Char) := do
  let f ← jsonGetField j "type".data
  .ok (match f with | some v => jsonToPyStr v | none => "unknown".data)

/-- Model of SentimentAnalyzer.analyze_text: delegates to the keyword
fallback. -/
def SentimentAnalyzer.analyze_text (content ticker : List Char) : ℚ :=
  simpleSentimentAnalysis content ticker

/-- Loop body of analyze_mentions_for_stock over the fetched mentions:
already-scored mentions contribute their score; unscored mentions are
scored now and contribute when the store accepts the sentiment update
under the re-derived external identifier. -/
def SentimentAnalyzer.mentionLoop (symbol : List Char) :
    Database → List Mention → Except PyError (ℚ × Nat × Database)
  | db, [] => .ok (0, 0, db)
  | db, m :: rest =>
      match m.sentimentScore with
      | some s => do
          let (t, c, db2) ← SentimentAnalyzer.mentionLoop symbol db rest
          .ok (s + t, 1 + c, db2)
      | none => do
          let sentiment := SentimentAnalyzer.analyze_text m.content symbol
          let meta ← jsonLoads m.metadata
          let typeStr ← jsonGetTypeDefault meta
          let url ← (match m.url with
                     | some u => Except.ok u
                     | none => Except.error PyError.attributeError)
          let externalId := "reddit_".data ++ typeStr ++ "_".data ++ lastSegment url
          let upd ← db.update_sentiment_score externalId sentiment
          let (t, c, db3) ← SentimentAnalyzer.mentionLoop symbol upd.2 rest
          if upd.1 then .ok (sentiment + t, 1 + c, db3) else .ok (t, c, db3)

/-- Model of SentimentAnalyzer.analyze_mentions_for_stock. -/
def SentimentAnalyzer.analyze_mentions_for_stock (db : Database) (symbol : List Char)
    (limit : Option Nat) : Except PyError (AnalysisResult × Database) := do
  let mentions ← db.get_mentions_for_stock symbol limit
  if mentions.isEmpty then
    .ok ({ averageSentiment := 0, totalMentions := 0, analyzed := 0 }, db)
  else do
    let (total, analyzed, db2) ← SentimentAnalyzer.mentionLoop symbol db mentions
    let avg : ℚ := if analyzed > 0 then total / (analyzed : ℚ) else 0
    .ok ({ averageSentiment := avg, totalMentions := mentions.length,
           analyzed := analyzed }, db2)

/-! ## Claim C4: ticker extraction -/

/-- Claim C4: ticker extraction upper-cases the text and returns the
duplicate-free set of exactly those configured tickers that occur in the
text as whole words (word-boundary matching, hence case-insensitive),
never as a substring of a longer word: membership in the result is
equivalent to being an upper-cased configured ticker occurring as a whole
word of the upper-cased text, the result carries no duplicates (so no
ticker outside the configured list is ever returned and each at most
once), extraction from GOOGLE is not GOOG with configured ticker GOOG
returns exactly that one ticker with no match inside GOOGLE, and a
configured ticker GO matches nowhere in that text. -/
theorem c4_extract_tickers_word_boundary :
    (∀ cfgTickers text t, t ∈ extractTickers cfgTickers text ↔
        (t ∈ cfgTickers.map pyUpper ∧ occursAsWord (pyUpper text) t = true))
    ∧ (∀ cfgTickers text, (extractTickers cfgTickers text).Nodup)
    ∧ extractTickers ["GOOG".data] "GOOGLE is not GOOG".data = ["GOOG".data]
    ∧ extractTickers ["GO".data] "GOOGLE is not GOOG".data = []
    ∧ extractTickers ["goog".data] "google is not goog".data = ["GOOG".data] := by
  refine ⟨fun cfgTickers text t => ?_, fun cfgTickers text => ?_, by decide, by decide, by decide⟩
  · constructor
    · intro h
      have h2 := List.mem_dedup.mp h
      exact List.mem_filter.mp h2
    · intro h
      exact List.mem_dedup.mpr (List.mem_filter.mpr h)
  · exact List.nodup_dedup _

/-- Witness for C4: the characterization instantiated on the concrete
GOOGLE example. -/
theorem c4_extract_tickers_word_boundary_witness :
    "GOOG".data ∈ ["GOOG".data].map pyUpper ∧
      occursAsWord (pyUpper "GOOGLE is not GOOG".data) "GOOG".data = true :=
  (c4_extract_tickers_word_boundary.1 ["GOOG".data] "GOOGLE is not GOOG".data
    "GOOG".data).mp (by decide)

/-! ## Claim C6: sentiment scoring -/

/-- Left argument bounds the Python max from below. -/
lemma pyMax_lower (a b : ℚ) : a ≤ pyMax a b := by
  unfold pyMax
  split
  · linarith
  · linarith

/-- An upper bound of both arguments bounds the Python max. -/
lemma pyMax_le (a b c : ℚ) (h1 : a ≤ c) (h2 : b ≤ c) : pyMax a b ≤ c := by
  unfold pyMax
  split
  · exact h2
  · exact h1

/-- Python min is at most its left argument. -/
lemma pyMin_le_left (a b : ℚ) : pyMin a b ≤ a := by
  unfold pyMin
  split
  · linarith
  · linarith

/-- Claim C6: the keyword score always lies between -1 and 1; it is
exactly 0 when the ticker does not occur in the content under
case-insensitive comparison, and exactly 0 when no sentiment keyword
occurs; otherwise it is the normalized difference of the presence counts
of the two disjoint keyword lists (raw substring containment), clamped;
the two concrete examples from the spec evaluate as claimed. -/
theorem c6_simple_sentiment_analysis :
    (∀ content ticker, -1 ≤ simpleSentimentAnalysis content ticker ∧
        simpleSentimentAnalysis content ticker ≤ 1)
    ∧ (∀ content ticker, containsSub (pyLower content) (pyLower ticker) = false →
        simpleSentimentAnalysis content ticker = 0)
    ∧ (∀ content ticker,
        (positiveWords.filter (fun w => containsSub (pyLower content) w)).length = 0 →
        (negativeWords.filter (fun w => containsSub (pyLower content) w)).length = 0 →
        simpleSentimentAnalysis content ticker = 0)
    ∧ (∀ content ticker, containsSub (pyLower content) (pyLower ticker) = true →
        ((positiveWords.filter (fun w => containsSub (pyLower content) w)).length +
         (negativeWords.filter (fun w => containsSub (pyLower content) w)).length ≠ 0) →
        simpleSentimentAnalysis content ticker =
          pyMax (-1) (pyMin 1
            ((((positiveWords.filter (fun w => containsSub (pyLower content) w)).length : ℚ) -
              ((negativeWords.filter (fun w => containsSub (pyLower content) w)).length : ℚ)) /
             ((pyMaxNat ((positiveWords.filter (fun w => containsSub (pyLower content) w)).length +
                (negativeWords.filter (fun w => containsSub (pyLower content) w)).length) 1 : Nat) : ℚ))))
    ∧ (∀ w, w ∈ positiveWords → w ∉ negativeWords)
    ∧ 0 < simpleSentimentAnalysis "AAPL to the moon, bullish!".data "AAPL".data
    ∧ simpleSentimentAnalysis "market update".data "AAPL".data = 0 := by
  refine ⟨fun content ticker => ?_, fun content ticker h => ?_, fun content ticker hp hn => ?_,
    fun content ticker h hne => ?_, by decide, ?_, by
      rw [show simpleSentimentAnalysis "market update".data "AAPL".data = 0 from by decide]⟩
  · unfold simpleSentimentAnalysis
    by_cases h : containsSub (pyLower content) (pyLower ticker) = true
    · simp only [h, Bool.not_true]
      by_cases h2 : (positiveWords.filter (fun w => containsSub (pyLower content) w)).length +
          (negativeWords.filter (fun w => containsSub (pyLower content) w)).length = 0
      · simp only [h2]
        norm_num
      · simp only [h2, if_false]
        refine ⟨pyMax_lower _ _, pyMax_le _ _ _ (by norm_num) (pyMin_le_left _ _)⟩
    · simp only [Bool.not_eq_true] at h
      simp only [h]
      norm_num
  · unfold simpleSentimentAnalysis
    simp only [h]
    norm_num
  · unfold simpleSentimentAnalysis
    by_cases h : containsSub (pyLower content) (pyLower ticker) = true
    · simp only [h, hp, hn, Bool.not_true]
      norm_num
    · simp only [Bool.not_eq_true] at h
      simp only [h]
      norm_num
  · unfold simpleSentimentAnalysis
    simp only [h, Bool.not_true, if_false, hne]
    simp
  · rw [simpleSentimentAnalysis]
    rw [show containsSub (pyLower "AAPL to the moon, bullish!".data)
        (pyLower "AAPL".data) = true from by decide]
    rw [show (positiveWords.filter
        (fun w => containsSub (pyLower "AAPL to the moon, bullish!".data) w)).length = 3
        from by decide]
    rw [show (negativeWords.filter
        (fun w => containsSub (pyLower "AAPL to the moon, bullish!".data) w)).length = 0
        from by decide]
    norm_num [pyMax, pyMin, pyMaxNat]

/-- Witness for C6: the zero-on-absent-ticker clause instantiated on the
market update example. -/
theorem c6_simple_sentiment_analysis_witness :
    simpleSentimentAnalysis "market update".data "AAPL".data = 0 :=
  c6_simple_sentiment_analysis.2.1 "market update".data "AAPL".data (by decide)

/-! ## Claim C7: recommendation thresholds -/

/-- Claim C7: the recommendation is HOLD whenever the mention count is
below 5 regardless of sentiment; with at least 5 mentions it is BUY when
the sentiment reaches the buy threshold, else SELL when it is at most the
sell threshold, else HOLD; the clauses hold for every threshold pair, a
sell threshold raised above the buy threshold included (total function,
never an error), and the defaulted concrete cases from the spec evaluate
as claimed. -/
theorem c7_get_recommendation_cases :
    (∀ buyT sellT s n, n < 5 →
        getRecommendation buyT sellT s n = .HOLD)
    ∧ (∀ buyT sellT s n, ¬ n < 5 → s ≥ buyT →
        getRecommendation buyT sellT s n = .BUY)
    ∧ (∀ buyT sellT s n, ¬ n < 5 → ¬ s ≥ buyT → s ≤ sellT →
        getRecommendation buyT sellT s n = .SELL)
    ∧ (∀ buyT sellT s n, ¬ n < 5 → ¬ s ≥ buyT → ¬ s ≤ sellT →
        getRecommendation buyT sellT s n = .HOLD)
    ∧ getRecommendation defaultBuyThreshold defaultSellThreshold (9/10) 3 = .HOLD
    ∧ getRecommendation defaultBuyThreshold defaultSellThreshold (8/10) 10 = .BUY
    ∧ getRecommendation defaultBuyThreshold defaultSellThreshold (2/10) 10 = .SELL
    ∧ getRecommendation (1/2) (4/5) (3/5) 10 = .BUY := by
  refine ⟨fun buyT sellT s n h => ?_, fun buyT sellT s n h1 h2 => ?_,
    fun buyT sellT s n h1 h2 h3 => ?_, fun buyT sellT s n h1 h2 h3 => ?_, ?_, ?_, ?_, ?_⟩
  · simp [getRecommendation, h]
  · simp [getRecommendation, h1, h2]
  · simp [getRecommendation, h1, h2, h3]
  · simp [getRecommendation, h1, h2, h3]
  · norm_num [getRecommendation, defaultBuyThreshold, defaultSellThreshold]
  · norm_num [getRecommendation, defaultBuyThreshold, defaultSellThreshold]
  · norm_num [getRecommendation, defaultBuyThreshold, defaultSellThreshold]
  · norm_num [getRecommendation]

/-- Witness for C7: the insufficient-mentions gate instantiated at high
sentiment. -/
theorem c7_get_recommendation_cases_witness :
    getRecommendation defaultBuyThreshold defaultSellThreshold (9/10) 3
      = Recommendation.HOLD :=
  c7_get_recommendation_cases.1 defaultBuyThreshold defaultSellThreshold (9/10) 3
    (by norm_num)

/-! ## Claim C5: upsertStock idempotence -/

/-- At most one stock row carries a given symbol when the symbol column
is duplicate-free. -/
lemma filter_symbol_length_le_one (l : List Stockrec) (u : List Char)
    (h : (l.map Stockrec.symbol).Nodup) :
    (l.filter (fun r => r.symbol = u)).length ≤ 1 := by
  induction l with
  | nil => simp
  | cons r rest ih =>
      rw [List.map_cons, List.nodup_cons] at h
      by_cases hr : r.symbol = u
      · have hrest : rest.filter (fun x => decide (x.symbol = u)) = [] := by
          rw [List.filter_eq_nil_iff]
          intro x hx
          simp only [decide_eq_true_eq]
          intro hxu
          exact h.1 (hr ▸ hxu ▸ List.mem_map_of_mem Stockrec.symbol hx)
        simp [List.filter_cons, hr, hrest]
      · simp only [List.filter_cons, hr, decide_eq_true_eq, if_false]
        exact ih h.2

/-- Claim C5: add_stock normalizes the symbol to uppercase before any
comparison; on an already-present normalized symbol it inserts nothing,
never raises, and returns the identifier of the existing row; two calls
whose arguments normalize to the same symbol return one identifier and
leave exactly one row with that symbol.  Both store generations share the
add_stock code, so the fact is stated for both. -/
theorem c5_add_stock_idempotent :
    (∀ (db : Database) (s : List Char) (r : Stockrec), db.connOpen = true →
        (db.stocks.filter (fun x => x.symbol = pyUpper s)).head? = some r →
        db.add_stock s = .ok (some r.id, db))
    ∧ (∀ (db : Database) (s1 s2 : List Char), db.connOpen = true →
        (db.stocks.map Stockrec.symbol).Nodup → pyUpper s1 = pyUpper s2 →
        ∃ i db2, db.add_stock s1 = .ok (some i, db2) ∧
          db2.add_stock s2 = .ok (some i, db2) ∧
          (db2.stocks.filter (fun x => x.symbol = pyUpper s1)).length = 1 ∧
          db2.connOpen = true)
    ∧ (∀ (ldb : LegacyDatabase) (s : List Char) (r : Stockrec),
        (ldb.stocks.filter (fun x => x.symbol = pyUpper s)).head? = some r →
        ldb.add_stock s = (some r.id, ldb))
    ∧ (∀ (ldb : LegacyDatabase) (s1 s2 : List Char),
        (ldb.stocks.map Stockrec.symbol).Nodup → pyUpper s1 = pyUpper s2 →
        ∃ i ldb2, ldb.add_stock s1 = (some i, ldb2) ∧
          ldb2.add_stock s2 = (some i, ldb2) ∧
          (ldb2.stocks.filter (fun x => x.symbol = pyUpper s1)).length = 1) := by
  refine ⟨fun db s r hconn hh => ?_, fun db s1 s2 hconn hnodup heq => ?_,
    fun ldb s r hh => ?_, fun ldb s1 s2 hnodup heq => ?_⟩
  · simp [Database.add_stock, Database.requireConn, hconn, hh, Bind.bind, Except.bind]
  · cases hh : (db.stocks.filter (fun x => x.symbol = pyUpper s1)).head? with
    | some r =>
        refine ⟨r.id, db, ?_, ?_, ?_, hconn⟩
        · simp [Database.add_stock, Database.requireConn, hconn, hh, Bind.bind, Except.bind]
        · have hh2 : (db.stocks.filter (fun x => x.symbol = pyUpper s2)).head? = some r := by
            rw [← heq]; exact hh
          simp [Database.add_stock, Database.requireConn, hconn, hh2, Bind.bind, Except.bind]
        · have hle := filter_symbol_length_le_one db.stocks (pyUpper s1) hnodup
          have hne : db.stocks.filter (fun x => decide (x.symbol = pyUpper s1)) ≠ [] := by
            intro hnil
            rw [hnil] at hh
            simp at hh
          have hpos := List.length_pos.mpr hne
          simp only [decide_eq_true_eq] at hle hpos ⊢
          omega
    | none =>
        have hnil : db.stocks.filter (fun x => decide (x.symbol = pyUpper s1)) = [] := by
          rwa [List.head?_eq_none_iff] at hh
        have hfind2 : db.stocks.find? (fun x => decide (x.symbol = pyUpper s2)) = none := by
          rw [List.find?_eq_none]
          intro x hx
          have := List.filter_eq_nil_iff.mp hnil x hx
          rw [← heq]
          simpa using this
        refine ⟨db.nextStockId,
          { db with
              stocks := db.stocks ++ [(⟨db.nextStockId, pyUpper s1⟩ : Stockrec)],
              nextStockId := db.nextStockId + 1 }, ?_, ?_, ?_, hconn⟩
        · simp [Database.add_stock, Database.requireConn, hconn, hh, Bind.bind, Except.bind]
        · simp [Database.add_stock, Database.requireConn, hconn, hfind2, heq,
            Bind.bind, Except.bind]
        · simp [List.filter_append, hnil]
  · simp [LegacyDatabase.add_stock, hh]
  · cases hh : (ldb.stocks.filter (fun x => x.symbol = pyUpper s1)).head? with
    | some r =>
        refine ⟨r.id, ldb, ?_, ?_, ?_⟩
        · simp [LegacyDatabase.add_stock, hh]
        · have hh2 : (ldb.stocks.filter (fun x => x.symbol = pyUpper s2)).head? = some r := by
            rw [← heq]; exact hh
          simp [LegacyDatabase.add_stock, hh2]
        · have hle := filter_symbol_length_le_one ldb.stocks (pyUpper s1) hnodup
          have hne : ldb.stocks.filter (fun x => decide (x.symbol = pyUpper s1)) ≠ [] := by
            intro hnil
            rw [hnil] at hh
            simp at hh
          have hpos := List.length_pos.mpr hne
          simp only [decide_eq_true_eq] at hle hpos ⊢
          omega
    | none =>
        have hnil : ldb.stocks.filter (fun x => decide (x.symbol = pyUpper s1)) = [] := by
          rwa [List.head?_eq_none_iff] at hh
        have hfind2 : ldb.stocks.find? (fun x => decide (x.symbol = pyUpper s2)) = none := by
          rw [List.find?_eq_none]
          intro x hx
          have := List.filter_eq_nil_iff.mp hnil x hx
          rw [← heq]
          simpa using this
        refine ⟨ldb.nextStockId,
          { ldb with
              stocks := ldb.stocks ++ [(⟨ldb.nextStockId, pyUpper s1⟩ : Stockrec)],
              nextStockId := ldb.nextStockId + 1 }, ?_, ?_, ?_⟩
        · simp [LegacyDatabase.add_stock, hh]
        · simp [LegacyDatabase.add_stock, hfind2, heq]
        · simp [List.filter_append, hnil]

/-- Witness for C5: the two-call clause instantiated on a fresh store
with the symbols aapl and AAPL. -/
theorem c5_add_stock_idempotent_witness :
    ∃ i db2, Database.init.add_stock "aapl".data = .ok (some i, db2) ∧
      db2.add_stock "AAPL".data = .ok (some i, db2) ∧
      (db2.stocks.filter (fun x => x.symbol = pyUpper "aapl".data)).length = 1 ∧
      db2.connOpen = true :=
  c5_add_stock_idempotent.2.1 Database.init "aapl".data "AAPL".data
    (by decide) (by decide) (by decide)

/-! ## Claim C1: mention insert deduplication -/

/-- Claim C1: on an open store, add_mention with an external identifier
not yet present returns True and appends exactly the new row; with a
colliding external identifier it returns False as a value (not an
exception), leaving the existing rows and the rest of the store
unchanged; every insert preserves the at-most-one-row-per-external-id
invariant; and a second insert of the same external identifier right
after a successful first returns False. -/
theorem c1_add_mention_dedup :
    (∀ (db : Database) (sid : Nat) (content : List Char)
        (url meta : Option (List Char)) (x : List Char),
        db.connOpen = true →
        (∀ m ∈ db.mentions, m.externalId ≠ some x) →
        db.add_mention sid content url (some x) meta =
          .ok (true,
            { db with
                mentions := db.mentions ++
                  [{ id := db.nextMentionId, stockId := sid, content := content,
                     url := url, externalId := some x, metadata := meta,
                     sentimentScore := none }],
                nextMentionId := db.nextMentionId + 1 }))
    ∧ (∀ (db : Database) (sid : Nat) (content : List Char)
        (url meta : Option (List Char)) (x : List Char),
        db.connOpen = true →
        (∃ m ∈ db.mentions, m.externalId = some x) →
        db.add_mention sid content url (some x) meta = .ok (false, db))
    ∧ (∀ (db : Database) (sid : Nat) (content : List Char)
        (url extId meta : Option (List Char)) (b : Bool) (db2 : Database),
        atMostOnePerExternalId db →
        db.add_mention sid content url extId meta = .ok (b, db2) →
        atMostOnePerExternalId db2)
    ∧ (∀ (db db2 : Database) (sid sid2 : Nat) (content content2 : List Char)
        (url url2 meta meta2 : Option (List Char)) (x : List Char),
        db.add_mention sid content url (some x) meta = .ok (true, db2) →
        db2.add_mention sid2 content2 url2 (some x) meta2 = .ok (false, db2)) := by
  have habsent : ∀ (db : Database) (sid : Nat) (content : List Char)
      (url meta : Option (List Char)) (x : List Char),
      db.connOpen = true →
      db.mentions.any (fun m => m.externalId = some x) = false →
      db.add_mention sid content url (some x) meta =
        .ok (true,
          { db with
              mentions := db.mentions ++
                [{ id := db.nextMentionId, stockId := sid, content := content,
                   url := url, externalId := some x, metadata := meta,
                   sentimentScore := none }],
              nextMentionId := db.nextMentionId + 1 }) := by
    intro db sid content url meta x hconn hany
    simp [Database.add_mention, Database.requireConn, hconn, hany, Bind.bind, Except.bind]
  have hpresent : ∀ (db : Database) (sid : Nat) (content : List Char)
      (url meta : Option (List Char)) (x : List Char),
      db.connOpen = true →
      db.mentions.any (fun m => m.externalId = some x) = true →
      db.add_mention sid content url (some x) meta = .ok (false, db) := by
    intro db sid content url meta x hconn hany
    simp [Database.add_mention, Database.requireConn, hconn, hany, Bind.bind, Except.bind]
  refine ⟨?_, ?_, ?_, ?_⟩
  · intro db sid content url meta x hconn habs
    apply habsent _ _ _ _ _ _ hconn
    rw [List.any_eq_false]
    intro m hm
    simpa using habs m hm
  · intro db sid content url meta x hconn hex
    apply hpresent _ _ _ _ _ _ hconn
    rw [List.any_eq_true]
    obtain ⟨m, hm, hx⟩ := hex
    exact ⟨m, hm, by simpa using hx⟩
  · intro db sid content url extId meta b db2 hinv hok
    by_cases hconn : db.connOpen = true
    · cases extId with
      | none =>
          simp [Database.add_mention, Database.requireConn, hconn, Bind.bind,
            Except.bind] at hok
          obtain ⟨-, hdb2⟩ := hok
          subst hdb2
          intro y
          have := hinv y
          simpa [List.filter_append] using this
      | some x =>
          cases hany : db.mentions.any (fun m => m.externalId = some x) with
          | true =>
              rw [hpresent _ _ _ _ _ _ hconn hany] at hok
              simp only [Except.ok.injEq, Prod.mk.injEq] at hok
              obtain ⟨-, hdb2⟩ := hok
              subst hdb2
              exact hinv
          | false =>
              rw [habsent _ _ _ _ _ _ hconn hany] at hok
              simp only [Except.ok.injEq, Prod.mk.injEq] at hok
              obtain ⟨-, hdb2⟩ := hok
              subst hdb2
              intro y
              by_cases hxy : x = y
              · subst hxy
                have hnil : db.mentions.filter (fun m => decide (m.externalId = some x)) = [] := by
                  rw [List.filter_eq_nil_iff]
                  intro m hm
                  have := List.any_eq_false.mp hany m hm
                  simpa using this
                simp [List.filter_append, hnil]
              · have hlen := hinv y
                rw [List.filter_append, List.length_append]
                have hone : ∀ m0 : Mention, m0.externalId = some x →
                    ([m0].filter (fun m => decide (m.externalId = some y))).length = 0 := by
                  intro m0 hm0
                  simp [List.filter_cons, hm0, hxy]
                rw [hone _ rfl]
                omega
    · simp only [Bool.not_eq_true] at hconn
      cases extId <;>
        simp [Database.add_mention, Database.requireConn, hconn, Bind.bind,
          Except.bind] at hok
  · intro db db2 sid sid2 content content2 url url2 meta meta2 x hok
    by_cases hconn : db.connOpen = true
    · cases hany : db.mentions.any (fun m => m.externalId = some x) with
      | true =>
          rw [hpresent _ _ _ _ _ _ hconn hany] at hok
          simp at hok
      | false =>
          rw [habsent _ _ _ _ _ _ hconn hany] at hok
          simp only [Except.ok.injEq, Prod.mk.injEq] at hok
          obtain ⟨-, hdb2⟩ := hok
          subst hdb2
          refine hpresent _ _ _ _ _ _ ?_ ?_
          · exact hconn
          · rw [List.any_eq_true]
            exact ⟨_, List.mem_append_right _ (List.mem_singleton.mpr rfl), by simp⟩
    · simp only [Bool.not_eq_true] at hconn
      simp [Database.add_mention, Database.requireConn, hconn, Bind.bind,
        Except.bind] at hok

/-- Witness for C1: a fresh store accepts external id x, then rejects a
second insert of x, concretely. -/
theorem c1_add_mention_dedup_witness :
    ∃ db2, Database.init.add_mention 1 "c1".data none (some "x".data) none
        = .ok (true, db2) ∧
      db2.add_mention 2 "c2".data none (some "x".data) none = .ok (false, db2) := by
  refine ⟨_, c1_add_mention_dedup.1 Database.init 1 "c1".data none none "x".data
    (by decide) (by decide), ?_⟩
  exact c1_add_mention_dedup.2.2.2 Database.init _ 1 2 "c1".data "c2".data
    none none none none "x".data
    (c1_add_mention_dedup.1 Database.init 1 "c1".data none none "x".data
      (by decide) (by decide))

/-! ## Claim C9: operations on a torn-down store -/

/-- Claim C9: after close, every store operation (adding a stock, stock
id lookup, mention insert, duplicate pre-check, mention fetch, sentiment
update, stock listing) returns the RuntimeError whose message is
Database connection not initialized, an outcome structurally distinct
from the dedup rejection (which is an ok result carrying False), so no
operation silently no-ops. -/
theorem c9_closed_store_fails_fast :
    ∀ (db : Database) (sym content extId : List Char) (sid : Nat)
      (url extIdOpt meta : Option (List Char)) (score : ℚ) (lim : Option Nat),
      (db.close).add_stock sym
          = .error (.runtimeError "Database connection not initialized")
      ∧ (db.close).get_stock_id sym
          = .error (.runtimeError "Database connection not initialized")
      ∧ (db.close).add_mention sid content url extIdOpt meta
          = .error (.runtimeError "Database connection not initialized")
      ∧ (db.close).is_duplicate extId
          = .error (.runtimeError "Database connection not initialized")
      ∧ (db.close).get_mentions_for_stock sym lim
          = .error (.runtimeError "Database connection not initialized")
      ∧ (db.close).update_sentiment_score extId score
          = .error (.runtimeError "Database connection not initialized")
      ∧ (db.close).get_all_stocks
          = .error (.runtimeError "Database connection not initialized")
      ∧ (∀ r : Bool × Database,
          decide ((Except.ok r : Except PyError (Bool × Database))
            = .error (.runtimeError "Database connection not initialized")) = false) := by
  intro db sym content extId sid url extIdOpt meta score lim
  refine ⟨?_, ?_, ?_, ?_, ?_, ?_, ?_, fun r => rfl⟩
  · simp [Database.add_stock, Database.close, Database.requireConn, Bind.bind, Except.bind]
  · simp [Database.get_stock_id, Database.close, Database.requireConn, Bind.bind, Except.bind]
  · cases extIdOpt <;>
      simp [Database.add_mention, Database.close, Database.requireConn, Bind.bind, Except.bind]
  · simp [Database.is_duplicate, Database.close, Database.requireConn, Bind.bind, Except.bind]
  · simp [Database.get_mentions_for_stock, Database.close, Database.requireConn,
      Bind.bind, Except.bind]
  · simp [Database.update_sentiment_score, Database.close, Database.requireConn,
      Bind.bind, Except.bind]
  · simp [Database.get_all_stocks, Database.close, Database.requireConn,
      Bind.bind, Except.bind]

/-- Witness for C9: the mention insert against a freshly closed store
errors concretely. -/
theorem c9_closed_store_fails_fast_witness :
    (Database.init.close).add_mention 1 "c".data none (some "x".data) none
      = .error (.runtimeError "Database connection not initialized") :=
  (c9_closed_store_fails_fast Database.init "S".data "c".data "x".data 1
    none (some "x".data) none 0 none).2.2.1

/-! ## Claim C2: dedup and store pipeline -/

/-- The stock id lookup reads only the stocks table. -/
lemma get_stock_id_congr (db1 db2 : LegacyDatabase) (t : List Char)
    (h : db1.stocks = db2.stocks) :
    DataSource.get_stock_id db1 t = DataSource.get_stock_id db2 t := by
  simp [DataSource.get_stock_id, LegacyDatabase.get_stock_id, h]

/-- The per-ticker loop never touches the stocks table. -/
lemma storeForTickers_stocks (content url externalId metadata : List Char) :
    ∀ (ts : List (List Char)) (acc : Nat × LegacyDatabase),
      (storeForTickers content url externalId metadata acc ts).2.stocks = acc.2.stocks := by
  intro ts
  induction ts with
  | nil => intro acc; rfl
  | cons t rest ih =>
      intro acc
      cases hsid : DataSource.get_stock_id acc.2 t with
      | none =>
          simp only [storeForTickers, hsid]
          exact ih acc
      | some stockId =>
          by_cases hz : stockId ≠ 0
          · simp only [storeForTickers, hsid, if_pos hz]
            rw [ih]
            rfl
          · simp only [storeForTickers, hsid, if_neg hz]
            exact ih acc

/-- The per-ticker loop stores once per ticker whose stock id lookup is
truthy, and every such store succeeds in the legacy store, so the count
advances by exactly the number of such tickers. -/
lemma storeForTickers_count (content url externalId metadata : List Char) :
    ∀ (ts : List (List Char)) (acc : Nat × LegacyDatabase),
      (storeForTickers content url externalId metadata acc ts).1
        = acc.1 + ts.countP (hasKnownStockId acc.2) := by
  intro ts
  induction ts with
  | nil => intro acc; simp [storeForTickers]
  | cons t rest ih =>
      intro acc
      cases hsid : DataSource.get_stock_id acc.2 t with
      | none =>
          simp only [storeForTickers, hsid]
          rw [ih acc, List.countP_cons]
          simp [hasKnownStockId, hsid]
      | some stockId =>
          by_cases hz : stockId ≠ 0
          · simp only [storeForTickers, hsid, if_pos hz]
            show (storeForTickers content url externalId metadata
                (acc.1 + 1, (DataSource.store_data_point redditSource acc.2 stockId
                  content url externalId metadata).2) rest).1
              = acc.1 + List.countP (hasKnownStockId acc.2) (t :: rest)
            rw [ih]
            have hstocks : (DataSource.store_data_point redditSource acc.2 stockId
                content url externalId metadata).2.stocks = acc.2.stocks := rfl
            have hcong : rest.countP (hasKnownStockId (DataSource.store_data_point
                redditSource acc.2 stockId content url externalId metadata).2)
                = rest.countP (hasKnownStockId acc.2) := by
              apply List.countP_congr
              intro x _
              simp [hasKnownStockId, get_stock_id_congr _ _ _ hstocks]
            rw [hcong, List.countP_cons]
            have ht : hasKnownStockId acc.2 t = true := by
              simp [hasKnownStockId, hsid, hz]
            rw [ht]
            simp
            omega
          · simp only [storeForTickers, hsid, if_neg hz]
            rw [ih acc, List.countP_cons]
            have ht : hasKnownStockId acc.2 t = false := by
              simp only [Ne, not_not] at hz
              simp [hasKnownStockId, hsid, hz]
            rw [ht]
            simp

/-- Claim C2: the pipeline returns 0 without a store-existence check when
no configured ticker is extracted; with tickers found it performs the
store-existence check exactly once (never once per ticker: the check
count component is at most 1 on every input) and returns 0 on a known
external identifier, leaving the store unchanged; otherwise it attempts
one insert per extracted ticker with a truthy stock id, silently
dropping the rest, and returns the number of successful inserts; and on
a store tracking AAPL and TSLA, one item mentioning both yields stored
count 2 and two rows sharing the external identifier with distinct stock
ids. -/
theorem c2_process_content_for_tickers :
    (∀ cfg db content url extId meta,
        extractTickers cfg.tickers content = [] →
        processContentForTickers cfg db content url extId meta = (0, db, 0))
    ∧ (∀ cfg db content url extId meta,
        extractTickers cfg.tickers content ≠ [] →
        DataSource.is_duplicate redditSource db extId = true →
        processContentForTickers cfg db content url extId meta = (0, db, 1))
    ∧ (∀ cfg db content url extId meta,
        (processContentForTickers cfg db content url extId meta).2.2 ≤ 1)
    ∧ (∀ cfg db content url extId meta,
        DataSource.is_duplicate redditSource db extId = false →
        (processContentForTickers cfg db content url extId meta).1
          = (extractTickers cfg.tickers content).countP (hasKnownStockId db))
    ∧ ((processContentForTickers c2Config c2Store "AAPL and TSLA to the moon".data
          "u".data "reddit_submission_x".data "m".data).1 = 2
        ∧ ((processContentForTickers c2Config c2Store "AAPL and TSLA to the moon".data
            "u".data "reddit_submission_x".data "m".data).2.1.dataPoints.map
              (fun p => (p.stockId, p.externalId)))
          = [(1, some "reddit_submission_x".data), (2, some "reddit_submission_x".data)]
        ∧ (processContentForTickers c2Config c2Store "AAPL and TSLA to the moon".data
            "u".data "reddit_submission_x".data "m".data).2.2 = 1) := by
  refine ⟨fun cfg db content url extId meta h => ?_,
    fun cfg db content url extId meta h hdup => ?_,
    fun cfg db content url extId meta => ?_,
    fun cfg db content url extId meta hdup => ?_,
    by decide, by decide, by decide⟩
  · simp [processContentForTickers, h]
  · have hne : (extractTickers cfg.tickers content).isEmpty = false := by
      cases hcase : extractTickers cfg.tickers content with
      | nil => exact absurd hcase h
      | cons a l => rfl
    simp [processContentForTickers, hne, hdup]
  · rw [processContentForTickers]
    split
    · simp
    · split <;> simp
  · rw [processContentForTickers]
    cases hcase : extractTickers cfg.tickers content with
    | nil => simp
    | cons a l =>
        simp only [List.isEmpty_cons, if_false, hdup, Bool.false_eq_true]
        rw [← hcase]
        simp only [hcase, List.isEmpty_cons]
        rw [storeForTickers_count]
        simp [hcase]

/-- Witness for C2: the no-ticker clause and the duplicate clause
instantiated concretely: content with no configured ticker returns 0
with no existence check, and re-feeding the already-stored external
identifier returns 0 leaving the store unchanged after one check. -/
theorem c2_process_content_for_tickers_witness :
    processContentForTickers c2Config c2Store "nothing to see".data
        "u".data "reddit_submission_y".data "m".data = (0, c2Store, 0)
    ∧ processContentForTickers c2Config
        (processContentForTickers c2Config c2Store "AAPL and TSLA to the moon".data
          "u".data "reddit_submission_x".data "m".data).2.1
        "AAPL once more".data "u2".data "reddit_submission_x".data "m2".data
      = (0, (processContentForTickers c2Config c2Store "AAPL and TSLA to the moon".data
          "u".data "reddit_submission_x".data "m".data).2.1, 1) :=
  ⟨c2_process_content_for_tickers.1 c2Config c2Store "nothing to see".data
      "u".data "reddit_submission_y".data "m".data (by decide),
   c2_process_content_for_tickers.2.1 c2Config _ "AAPL once more".data
      "u2".data "reddit_submission_x".data "m2".data (by decide) (by decide)⟩

/-! ## Claim C3: walker early termination -/

/-- Claim C3: in both newest-first walks (submissions and comments), an
item older than the maximum window stops the iteration entirely: the
walk of any sequence equals the walk truncated right after the first such
item, whatever the later items are; an item younger than the minimum
window (but not beyond the maximum) is merely skipped and the walk
continues with the rest. -/
theorem c3_walker_early_termination :
    (∀ cfg now name db (xs ys : List Submission) (b : Submission),
        ageInDays now b.createdUtc > cfg.maxDays →
        processSubmissions cfg now name db (xs ++ b :: ys)
          = processSubmissions cfg now name db (xs ++ [b]))
    ∧ (∀ cfg now name db (xs ys : List RedditComment) (b : RedditComment),
        ageInDays now b.createdUtc > cfg.maxDays →
        processComments cfg now name db (xs ++ b :: ys)
          = processComments cfg now name db (xs ++ [b]))
    ∧ (∀ cfg now name db (ys : List Submission) (b : Submission),
        ageInDays now b.createdUtc ≤ cfg.maxDays →
        ageInDays now b.createdUtc < cfg.minDays →
        processSubmissions cfg now name db (b :: ys)
          = processSubmissions cfg now name db ys)
    ∧ (∀ cfg now name db (ys : List RedditComment) (b : RedditComment),
        ageInDays now b.createdUtc ≤ cfg.maxDays →
        ageInDays now b.createdUtc < cfg.minDays →
        processComments cfg now name db (b :: ys)
          = processComments cfg now name db ys) := by
  have hwithin : ∀ (cfg : RedditConfig) (age : ℚ), age ≤ cfg.maxDays → age < cfg.minDays →
      isWithinTimeRange cfg.minDays cfg.maxDays age = false := by
    intro cfg age hmax hmin
    simp only [isWithinTimeRange, decide_eq_false_iff_not, not_and]
    intro hge
    linarith
  refine ⟨fun cfg now name db xs ys b hb => ?_, fun cfg now name db xs ys b hb => ?_,
    fun cfg now name db ys b hmax hmin => ?_, fun cfg now name db ys b hmax hmin => ?_⟩
  · induction xs generalizing db with
    | nil =>
        simp only [List.nil_append]
        rw [processSubmissions, processSubmissions, if_pos hb, if_pos hb]
    | cons x xs ih =>
        simp only [List.cons_append]
        rw [processSubmissions, processSubmissions]
        by_cases h1 : ageInDays now x.createdUtc > cfg.maxDays
        · rw [if_pos h1, if_pos h1]
        · rw [if_neg h1, if_neg h1]
          cases h2 : isWithinTimeRange cfg.minDays cfg.maxDays (ageInDays now x.createdUtc) with
          | false =>
              simp only [Bool.not_false, if_pos]
              exact ih db
          | true =>
              simp only [Bool.not_true, Bool.false_eq_true, if_false]
              cases h3 : (getSubmissionText x).isEmpty with
              | true =>
                  simp only [if_pos]
                  exact ih db
              | false =>
                  simp only [Bool.false_eq_true, if_false]
                  rw [ih]
  · induction xs generalizing db with
    | nil =>
        simp only [List.nil_append]
        rw [processComments, processComments, if_pos hb, if_pos hb]
    | cons x xs ih =>
        simp only [List.cons_append]
        rw [processComments, processComments]
        by_cases h1 : ageInDays now x.createdUtc > cfg.maxDays
        · rw [if_pos h1, if_pos h1]
        · rw [if_neg h1, if_neg h1]
          cases h2 : isWithinTimeRange cfg.minDays cfg.maxDays (ageInDays now x.createdUtc) with
          | false =>
              simp only [Bool.not_false, if_pos]
              exact ih db
          | true =>
              simp only [Bool.not_true, Bool.false_eq_true, if_false]
              cases h3 : x.body.isEmpty with
              | true =>
                  simp only [if_pos]
                  exact ih db
              | false =>
                  simp only [Bool.false_eq_true, if_false]
                  rw [ih]
  · rw [processSubmissions]
    rw [if_neg (by linarith)]
    rw [hwithin cfg _ hmax hmin]
    simp
  · rw [processComments]
    rw [if_neg (by linarith)]
    rw [hwithin cfg _ hmax hmin]
    simp

/-- Witness for C3: at a clock of 10 days after the epoch with the
default window, an over-age third item truncates the submission walk
regardless of the fresher item queued behind it, and at a clock of 20
days with a one day minimum window a half-day-old comment is skipped
while the walk continues. -/
theorem c3_walker_early_termination_witness :
    processSubmissions c2Config 864000 "stocks".data c2Store
        ([c3NewSub] ++ c3OldSub :: [c3NewSub])
      = processSubmissions c2Config 864000 "stocks".data c2Store ([c3NewSub] ++ [c3OldSub])
    ∧ processComments { tickers := c2Config.tickers, minDays := 1, maxDays := 7 }
        (86400 * 20) "stocks".data c2Store (c3YoungComment :: [c3MidComment])
      = processComments { tickers := c2Config.tickers, minDays := 1, maxDays := 7 }
        (86400 * 20) "stocks".data c2Store [c3MidComment] :=
  ⟨c3_walker_early_termination.1 c2Config 864000 "stocks".data c2Store
      [c3NewSub] [c3NewSub] c3OldSub
      (by norm_num [ageInDays, c3OldSub, c2Config]),
   c3_walker_early_termination.2.2.2
      { tickers := c2Config.tickers, minDays := 1, maxDays := 7 }
      (86400 * 20) "stocks".data c2Store [c3MidComment] c3YoungComment
      (by norm_num [ageInDays, c3YoungComment])
      (by norm_num [ageInDays, c3YoungComment])⟩

/-! ## Claim C8: sentiment aggregation -/

/-- Claim C8: whenever the aggregation returns, the reported total equals
the number of fetched mentions, the reported average is 0 exactly when
the analyzed count is 0 (the empty fetch included) and otherwise equals
the loop sum of the contributing scores divided by the analyzed count;
a mention already carrying a score contributes that score as-is and
bumps the analyzed count; a not-yet-scored mention with readable
metadata and url is scored now, the store update is attempted under the
re-derived external identifier, and the mention contributes exactly when
the update reports success. -/
theorem c8_aggregate_average :
    (∀ (db : Database) (sym : List Char) (lim : Option Nat) (ms : List Mention)
        (r : AnalysisResult) (db2 : Database),
        db.get_mentions_for_stock sym lim = .ok ms →
        SentimentAnalyzer.analyze_mentions_for_stock db sym lim = .ok (r, db2) →
        r.totalMentions = ms.length
        ∧ (r.analyzed = 0 → r.averageSentiment = 0)
        ∧ ∃ t, SentimentAnalyzer.mentionLoop sym db ms = .ok (t, r.analyzed, db2)
            ∧ r.averageSentiment = (if r.analyzed > 0 then t / (r.analyzed : ℚ) else 0))
    ∧ (∀ (db : Database) (sym : List Char) (m : Mention) (s : ℚ) (ms : List Mention),
        m.sentimentScore = some s →
        SentimentAnalyzer.mentionLoop sym db (m :: ms)
          = (SentimentAnalyzer.mentionLoop sym db ms).map
              (fun p => (s + p.1, 1 + p.2.1, p.2.2)))
    ∧ (∀ (db : Database) (sym : List Char) (m : Mention) (ms : List Mention)
        (meta : Json) (ts u : List Char),
        db.connOpen = true →
        m.sentimentScore = none →
        jsonLoads m.metadata = .ok meta →
        jsonGetTypeDefault meta = .ok ts →
        m.url = some u →
        ∃ upd, db.update_sentiment_score
            ("reddit_".data ++ ts ++ "_".data ++ lastSegment u)
            (SentimentAnalyzer.analyze_text m.content sym) = .ok upd
          ∧ SentimentAnalyzer.mentionLoop sym db (m :: ms)
            = (SentimentAnalyzer.mentionLoop sym upd.2 ms).map (fun p =>
                (if upd.1 then SentimentAnalyzer.analyze_text m.content sym + p.1 else p.1,
                 if upd.1 then 1 + p.2.1 else p.2.1, p.2.2))) := by
  refine ⟨fun db sym lim ms r db2 hms hana => ?_,
    fun db sym m s ms hscore => ?_,
    fun db sym m ms meta ts u hconn hscore hmeta hts hurl => ?_⟩
  · rw [SentimentAnalyzer.analyze_mentions_for_stock] at hana
    simp only [hms, Bind.bind, Except.bind] at hana
    cases hempty : ms.isEmpty with
    | true =>
        have hnil : ms = [] := by
          cases ms with
          | nil => rfl
          | cons a l => exact absurd hempty (by simp)
        subst hnil
        simp only [List.isEmpty_nil, if_true] at hana
        simp only [Except.ok.injEq, Prod.mk.injEq] at hana
        obtain ⟨hr, hdb2⟩ := hana
        subst hr
        subst hdb2
        refine ⟨rfl, fun _ => rfl, 0, rfl, rfl⟩
    | false =>
        simp only [hempty, Bool.false_eq_true, if_false] at hana
        cases hloop : SentimentAnalyzer.mentionLoop sym db ms with
        | error e =>
            rw [hloop] at hana
            simp at hana
        | ok trip =>
            obtain ⟨t, c, db3⟩ := trip
            rw [hloop] at hana
            simp only [Except.ok.injEq, Prod.mk.injEq] at hana
            obtain ⟨hr, hdb2⟩ := hana
            subst hr
            subst hdb2
            refine ⟨rfl, fun hc0 => ?_, t, ?_, ?_⟩
            · simp only at hc0
              simp [hc0]
            · rfl
            · rfl
  · rw [SentimentAnalyzer.mentionLoop]
    simp only [hscore]
    cases hloop : SentimentAnalyzer.mentionLoop sym db ms with
    | error e => simp [hloop, Except.map, Bind.bind, Except.bind]
    | ok trip =>
        obtain ⟨t, c, db3⟩ := trip
        simp [hloop, Except.map, Bind.bind, Except.bind]
  · have hupd : ∃ p, db.update_sentiment_score
        ("reddit_".data ++ ts ++ "_".data ++ lastSegment u)
        (SentimentAnalyzer.analyze_text m.content sym) = .ok p := by
      rw [Database.update_sentiment_score]
      simp only [Database.requireConn, hconn, if_true, Bind.bind, Except.bind]
      by_cases hany : db.mentions.any (fun x => x.externalId =
          some ("reddit_".data ++ ts ++ "_".data ++ lastSegment u)) = true
      · rw [if_pos hany]
        exact ⟨_, rfl⟩
      · rw [if_neg hany]
        exact ⟨_, rfl⟩
    obtain ⟨upd, hupd⟩ := hupd
    refine ⟨upd, hupd, ?_⟩
    rw [SentimentAnalyzer.mentionLoop]
    simp only [hscore, hmeta, hts, hurl, hupd, Bind.bind, Except.bind]
    cases hloop : SentimentAnalyzer.mentionLoop sym upd.2 ms with
    | error e => cases hb : upd.1 <;> simp [hloop, hb, Except.map]
    | ok trip =>
        obtain ⟨t, c, db3⟩ := trip
        cases hb : upd.1 <;> simp [hloop, hb, Except.map]

/-- Witness for C8: the return-shape clause instantiated on an empty
fetch from a fresh store, the scored-mention clause on a mention carrying
the score 1, and the unscored-mention clause on a mention with readable
metadata and url. -/
theorem c8_aggregate_average_witness :
    (({ averageSentiment := 0, totalMentions := 0, analyzed := 0 } : AnalysisResult).totalMentions
        = ([] : List Mention).length
      ∧ (({ averageSentiment := 0, totalMentions := 0, analyzed := 0 } : AnalysisResult).analyzed = 0 →
          ({ averageSentiment := 0, totalMentions := 0, analyzed := 0 } : AnalysisResult).averageSentiment = 0)
      ∧ ∃ t, SentimentAnalyzer.mentionLoop "AAPL".data Database.init [] =
            .ok (t, ({ averageSentiment := 0, totalMentions := 0, analyzed := 0 } : AnalysisResult).analyzed,
              Database.init)
          ∧ ({ averageSentiment := 0, totalMentions := 0, analyzed := 0 } : AnalysisResult).averageSentiment
            = (if ({ averageSentiment := 0, totalMentions := 0, analyzed := 0 } : AnalysisResult).analyzed > 0
               then t / (({ averageSentiment := 0, totalMentions := 0, analyzed := 0 } : AnalysisResult).analyzed : ℚ)
               else 0))
    ∧ SentimentAnalyzer.mentionLoop "AAPL".data c10PreStore [c8ScoredMention]
        = (SentimentAnalyzer.mentionLoop "AAPL".data c10PreStore []).map
            (fun p => ((1 : ℚ) + p.1, 1 + p.2.1, p.2.2))
    ∧ ∃ upd, c10PreStore.update_sentiment_score
          ("reddit_".data ++ "submission".data ++ "_".data
            ++ lastSegment "https://reddit.com/s2".data)
          (SentimentAnalyzer.analyze_text c8UnscoredMention.content "AAPL".data) = .ok upd
        ∧ SentimentAnalyzer.mentionLoop "AAPL".data c10PreStore [c8UnscoredMention]
          = (SentimentAnalyzer.mentionLoop "AAPL".data upd.2 []).map (fun p =>
              (if upd.1 then SentimentAnalyzer.analyze_text c8UnscoredMention.content "AAPL".data + p.1
               else p.1,
               if upd.1 then 1 + p.2.1 else p.2.1, p.2.2)) :=
  ⟨c8_aggregate_average.1 Database.init "AAPL".data none []
      { averageSentiment := 0, totalMentions := 0, analyzed := 0 } Database.init
      (by decide) (by decide),
   c8_aggregate_average.2.1 c10PreStore "AAPL".data c8ScoredMention 1 [] rfl,
   c8_aggregate_average.2.2 c10PreStore "AAPL".data c8UnscoredMention []
      (Json.obj [("type".data, Json.str "submission".data)])
      "submission".data "https://reddit.com/s2".data
      rfl rfl (by rfl) (by rfl) rfl⟩

/-! ## Claim C10: aggregation over NULL metadata -/

/-- Inversion of a successful bind in the exception monad. -/
lemma except_bind_ok {α β : Type} {x : Except PyError α} {f : α → Except PyError β} {r : β}
    (h : (x >>= f) = .ok r) : ∃ v, x = .ok v ∧ f v = .ok r := by
  cases x with
  | error e => simp [Bind.bind, Except.bind] at h
  | ok v =>
      refine ⟨v, rfl, ?_⟩
      simpa [Bind.bind, Except.bind] using h

/-- The aggregation loop never returns over a list containing an
unscored mention whose metadata is NULL: json.loads receives None and
the TypeError (or an earlier failure of the walk) propagates. -/
lemma mentionLoop_null_metadata_never_ok :
    ∀ (sym : List Char) (ms : List Mention),
      (∃ m ∈ ms, m.sentimentScore = none ∧ m.metadata = none) →
      ∀ (db : Database) (res : ℚ × Nat × Database),
        SentimentAnalyzer.mentionLoop sym db ms ≠ .ok res := by
  intro sym ms
  induction ms with
  | nil =>
      intro hex
      obtain ⟨m, hm, -, -⟩ := hex
      exact absurd hm (List.not_mem_nil m)
  | cons a rest ih =>
      intro hex db res hok
      obtain ⟨m, hm, h1, h2⟩ := hex
      rcases List.mem_cons.mp hm with hma | hmrest
      · subst hma
        rw [SentimentAnalyzer.mentionLoop] at hok
        simp only [h1] at hok
        obtain ⟨meta, hj, -⟩ := except_bind_ok hok
        rw [h2] at hj
        simp [jsonLoads] at hj
      · cases hsc : a.sentimentScore with
        | some s =>
            rw [SentimentAnalyzer.mentionLoop] at hok
            simp only [hsc] at hok
            obtain ⟨p, hrest, -⟩ := except_bind_ok hok
            exact ih ⟨m, hmrest, h1, h2⟩ db p hrest
        | none =>
            rw [SentimentAnalyzer.mentionLoop] at hok
            simp only [hsc] at hok
            obtain ⟨meta, hj, hok⟩ := except_bind_ok hok
            obtain ⟨ts, ht, hok⟩ := except_bind_ok hok
            obtain ⟨u, hu, hok⟩ := except_bind_ok hok
            obtain ⟨upd, hup, hok⟩ := except_bind_ok hok
            obtain ⟨p, hrest, -⟩ := except_bind_ok hok
            exact ih ⟨m, hmrest, h1, h2⟩ upd.2 p hrest

/-- Claim C10: sentiment aggregation requires every unscored mention to
carry a metadata string: a fetched mention list containing a mention
with no sentiment score and a NULL metadata column makes
analyze_mentions_for_stock raise (json.loads receives None) rather than
score or skip that mention, even though the mention insert permits a
NULL metadata (its argument defaults to None); concretely, inserting
such a mention succeeds and the subsequent aggregation raises exactly
the TypeError. -/
theorem c10_null_metadata_aggregation_raises :
    (∀ (sym : List Char) (ms : List Mention),
        (∃ m ∈ ms, m.sentimentScore = none ∧ m.metadata = none) →
        ∀ (db : Database) (res : ℚ × Nat × Database),
          SentimentAnalyzer.mentionLoop sym db ms ≠ .ok res)
    ∧ (∀ (db : Database) (sym : List Char) (lim : Option Nat) (ms : List Mention),
        db.get_mentions_for_stock sym lim = .ok ms →
        (∃ m ∈ ms, m.sentimentScore = none ∧ m.metadata = none) →
        ∃ e, SentimentAnalyzer.analyze_mentions_for_stock db sym lim = .error e)
    ∧ (c10PreStore.add_mention 1 "plain note".data
          (some "https://reddit.com/p1".data) (some "reddit_submission_p1".data) none
        = .ok (true, c10Store)
      ∧ SentimentAnalyzer.analyze_mentions_for_stock c10Store "AAPL".data none
        = .error .typeError) := by
  refine ⟨mentionLoop_null_metadata_never_ok, ?_, by decide, by decide⟩
  intro db sym lim ms hms hex
  rw [SentimentAnalyzer.analyze_mentions_for_stock]
  simp only [hms, Bind.bind, Except.bind]
  have hnonempty : ms.isEmpty = false := by
    obtain ⟨m, hm, -, -⟩ := hex
    cases ms with
    | nil => exact absurd hm (List.not_mem_nil m)
    | cons a l => rfl
  simp only [hnonempty, Bool.false_eq_true, if_false]
  cases hloop : SentimentAnalyzer.mentionLoop sym db ms with
  | error e => exact ⟨e, rfl⟩
  | ok p => exact absurd hloop (mentionLoop_null_metadata_never_ok sym ms hex db p)

/-- Witness for C10: the raise clause instantiated on the concrete store
holding one unscored NULL-metadata mention. -/
theorem c10_null_metadata_aggregation_raises_witness :
    ∃ e, SentimentAnalyzer.analyze_mentions_for_stock c10Store "AAPL".data none
      = .error e :=
  c10_null_metadata_aggregation_raises.2.1 c10Store "AAPL".data none
    (c10Store.mentions) (by decide)
    ⟨⟨1, 1, "plain note".data, some "https://reddit.com/p1".data,
        some "reddit_submission_p1".data, none, none⟩, by decide, rfl, rfl⟩

end StockAdvisor
